import Mathlib

/-!
Verification development for the media-based severity classification pipeline
of the civic-tool repository.  The definitions below are a shallow embedding of
`civic_tool/civilian/views.py` (the functions `_get_video_duration_seconds`,
`save_uploaded_file_temp` and `report_issue`) and of the `IssueReport` model
declared in `civic_tool/civilian/models.py`.  Interactions with the outside
world (the moviepy / ffmpeg / opencv libraries, the object-detection call
`detect_pothole_severity`, and the database) are modelled as explicit oracle
inputs, while all control flow, comparisons and persisted values are translated
directly from the Python source.  Durations and frame counts are modelled as
rationals (Python floats used only for comparison and division here).
-/

namespace CivicTool

/-- Result of interacting with an external media library inside one probe
strategy of `_get_video_duration_seconds`.  `importFails` models the `import`
statement inside the strategy raising (no temporary file has been materialized
at that point); `raises` models the library call raising after the temporary
copy was written (the `with NamedTemporaryFile(delete=True)` block still
deletes the copy on exit); `ok` carries the data the library returned. -/
inductive LibResult (α : Type) where
  | importFails
  | raises
  | ok (a : α)
deriving Repr, DecidableEq

/-- One stream entry as reported by `ffmpeg.probe(...)` in views.py line 62:
`codecType` is the value of the key `codec_type`, and `duration` is the parsed
value of the key `duration` when that key is present. -/
structure FFStream where
  codecType : String
  duration  : Option ℚ
deriving Repr, DecidableEq

/-- External-world outcomes for one call of `_get_video_duration_seconds`
(views.py lines 13-111): `seekFails` models the initial `uploaded_file.seek(0)`
raising (caught by the outer try/except of the function); the three library
fields model what each backend reports for the uploaded bytes; `sizeBytes` is
`uploaded_file.size`. -/
structure ProbeEnv where
  seekFails : Bool
  moviepy   : LibResult (Option ℚ)
  ffprobe   : LibResult (List FFStream)
  opencv    : LibResult (Bool × ℚ × ℚ)
  sizeBytes : ℕ
deriving Repr, DecidableEq

/-- Method 1 of views.py (lines 34-49): open the clip with moviepy and accept
`clip.duration` only if it is not None and strictly positive.  Any raise inside
the strategy is caught by the per-strategy `except` and yields no duration. -/
def moviepyStrategy (r : LibResult (Option ℚ)) : Option ℚ :=
  match r with
  | .importFails => none
  | .raises => none
  | .ok d? =>
    match d? with
    | some d => if 0 < d then some d else none
    | none => none

/-- Method 2 of views.py (lines 51-68): run `ffmpeg.probe`, take the first
stream whose `codec_type` is "video", and accept its `duration` field whenever
the key is present (the source imposes no positivity check here). -/
def ffmpegStrategy (r : LibResult (List FFStream)) : Option ℚ :=
  match r with
  | .importFails => none
  | .raises => none
  | .ok streams =>
    match streams.find? (fun s => s.codecType == "video") with
    | some s => s.duration
    | none => none

/-- Method 3 of views.py (lines 70-91): open a cv2 VideoCapture; if it opened,
read `CAP_PROP_FRAME_COUNT` and `CAP_PROP_FPS`, and only when
`fps > 0 and frame_count > 0` compute `frame_count / fps`. -/
def opencvStrategy (r : LibResult (Bool × ℚ × ℚ)) : Option ℚ :=
  match r with
  | .importFails => none
  | .raises => none
  | .ok info =>
    match info with
    | (opened, frameCount, fps) =>
      if opened then
        if 0 < fps ∧ 0 < frameCount then some (frameCount / fps) else none
      else none

/-- Method 4 of views.py (lines 93-104): estimate the duration as the file size
in megabytes (`size / (1024 * 1024)`), i.e. an assumed 1 MB/s bitrate, and
accept the estimate only when `0 < estimate ≤ 10`. -/
def sizeStrategy (sizeBytes : ℕ) : Option ℚ :=
  if 0 < (sizeBytes : ℚ) / (1024 * 1024) ∧ (sizeBytes : ℚ) / (1024 * 1024) ≤ 10 then
    some ((sizeBytes : ℚ) / (1024 * 1024))
  else none

/-- Kind of a temporary file materialized during a request. -/
inductive TempKind where
  | probeCopy
  | classifyCopy
deriving Repr, DecidableEq

/-- A temporary file materialized during the request, together with whether it
has been deleted again by the time the request finishes. -/
structure TempEvent where
  kind    : TempKind
  deleted : Bool
deriving Repr, DecidableEq

/-- Temporary-file footprint of one attempted probe strategy that copies the
upload (`with NamedTemporaryFile(delete=True, ...)`): if the `import` raised,
no copy was materialized; otherwise the copy is written and is deleted when the
`with` block exits, whether or not the library call raised. -/
def stratTemps {α : Type} (r : LibResult α) : List TempEvent :=
  match r with
  | .importFails => []
  | .raises => [⟨.probeCopy, true⟩]
  | .ok _ => [⟨.probeCopy, true⟩]

/-- Observable outcome of one call of `_get_video_duration_seconds`: the
returned duration, the list of strategy indices attempted (in order), and the
temporary files materialized. -/
structure ProbeRun where
  duration  : Option ℚ
  attempted : List ℕ
  temps     : List TempEvent
deriving Repr, DecidableEq

/-- Instrumented embedding of the body of `_get_video_duration_seconds`
(views.py lines 15-107): each strategy runs only while `duration` is still
None, exactly as the chain of `if duration is None:` blocks in the source.
Strategy 4 materializes no temporary file (it only reads `uploaded_file.size`). -/
def probeRun (env : ProbeEnv) : ProbeRun :=
  if env.seekFails then ⟨none, [], []⟩
  else
    match moviepyStrategy env.moviepy with
    | some d => ⟨some d, [1], stratTemps env.moviepy⟩
    | none =>
      match ffmpegStrategy env.ffprobe with
      | some d => ⟨some d, [1, 2], stratTemps env.moviepy ++ stratTemps env.ffprobe⟩
      | none =>
        match opencvStrategy env.opencv with
        | some d =>
          ⟨some d, [1, 2, 3],
            stratTemps env.moviepy ++ stratTemps env.ffprobe ++ stratTemps env.opencv⟩
        | none =>
          ⟨sizeStrategy env.sizeBytes, [1, 2, 3, 4],
            stratTemps env.moviepy ++ stratTemps env.ffprobe ++ stratTemps env.opencv⟩

/-- Exception-level view of the body of `_get_video_duration_seconds` before
the outer try/except of lines 15/109-111: `.error` means an exception escaped
the strategy cascade (only the initial `uploaded_file.seek(0)` can do so, since
every strategy has its own handler). -/
def probeBodyE (env : ProbeEnv) : Except Unit (Option ℚ) :=
  if env.seekFails then .error () else .ok (probeRun env).duration

/-- `_get_video_duration_seconds` (views.py lines 13-111): the outer
try/except turns any escaped exception into a `None` return. -/
def videoDurationSeconds (env : ProbeEnv) : Option ℚ :=
  match probeBodyE env with
  | .error _ => none
  | .ok d => d

/-- Result of strategy `k` of the cascade, in the fixed source order:
1 = moviepy, 2 = ffmpeg probe, 3 = opencv frame count, 4 = size heuristic. -/
def strategyResult (env : ProbeEnv) (k : ℕ) : Option ℚ :=
  if k = 1 then moviepyStrategy env.moviepy
  else if k = 2 then ffmpegStrategy env.ffprobe
  else if k = 3 then opencvStrategy env.opencv
  else if k = 4 then sizeStrategy env.sizeBytes
  else none

/-- First defined value in an ordered list of strategy outcomes. -/
def firstSome : List (Option ℚ) → Option ℚ
  | [] => none
  | some d :: _ => some d
  | none :: rest => firstSome rest

theorem probeRun_duration (env : ProbeEnv) :
    (probeRun env).duration = videoDurationSeconds env := by
  by_cases h : env.seekFails
  · simp [videoDurationSeconds, probeBodyE, probeRun, h]
  · simp [videoDurationSeconds, probeBodyE, h]

/-- Python `str.strip()` as used on the four POST text fields (views.py lines
260-263): drop leading and trailing whitespace.  Defined by structural
recursion on the character list so that concrete instances evaluate. -/
def pyStrip (s : String) : String :=
  ⟨((s.data.dropWhile Char.isWhitespace).reverse.dropWhile Char.isWhitespace).reverse⟩

/-- Python `str.startswith(prefix)` as used on the media content types
(views.py lines 339 and 351).  Defined by structural recursion on the
character lists so that concrete instances evaluate. -/
def pyStartswith (s pre : String) : Bool :=
  pre.data.isPrefixOf s.data

/-- An uploaded file as the view sees it: `name`, `content_type` and `size`. -/
structure MediaFile where
  name        : String
  contentType : String
  sizeBytes   : ℕ
deriving Repr, DecidableEq

/-- One HTTP request to `report_issue`: the method, the authenticated user (if
any), the four raw POST text fields, and the optional uploaded files from
`request.FILES` ("image" and "video"). -/
structure ReportRequest where
  isPost      : Bool
  user        : Option String
  title       : String
  category    : String
  description : String
  location    : String
  image       : Option MediaFile
  video       : Option MediaFile
deriving Repr, DecidableEq

/-- Outcome of the external call `detect_pothole_severity` on the materialized
temp copy of the upload: either the call raises, or it returns the dict
`{'boxes': ..., 'severity': ..., 'annotated_output': ...}` consumed by
`report_issue`. -/
inductive ClassifyOutcome where
  | raises
  | ok (boxes : ℕ) (severity : String) (annotatedOutput : String)
deriving Repr, DecidableEq

/-- External-world oracles for one `report_issue` request: the classification
outcome, the prober oracles for the attached video, and whether each of the
three database statements inside the `try` block raises —
`IssueReport.objects.create` (views.py line 326),
`issue.save(update_fields=["image"])` (line 344) and
`issue.save(update_fields=["video"])` (line 356).  All three raises are caught
by the `except` at line 362; a failed save leaves the already-inserted row in
the database without the column that save would have updated. -/
structure ViewEnv where
  classify        : ClassifyOutcome
  probe           : ProbeEnv
  createRaises    : Bool
  saveImageRaises : Bool
  saveVideoRaises : Bool
deriving Repr, DecidableEq

/-- Columns of the IssueReport table exactly as declared in
`civilian/models.py` lines 7-40 (plus the implicit primary key).  Note that the
model declares no `annotated_image` and no `annotated_video` column. -/
def issueReportColumns : List String :=
  ["id", "reporter", "title", "category", "description", "location",
   "status", "severity", "created_at", "updated_at", "image", "video"]

/-- A persisted IssueReport row, carrying exactly the value-bearing columns of
`civilian/models.py` (the `created_at`/`updated_at` auto timestamps are outside
the model).  `image`/`video` hold the stored upload name when set. -/
structure IssueReportRow where
  reporter    : Option String
  title       : String
  category    : String
  description : String
  location    : String
  status      : String
  severity    : String
  image       : Option String
  video       : Option String
deriving Repr, DecidableEq

/-- The distinct error payloads `report_issue` can render into
`civilian/report_issue.html`; `videoTooLong` carries the measured duration that
the source interpolates into its message. -/
inductive FormError where
  | allFieldsRequired
  | videoTooLong (duration : ℚ)
  | invalidImageType
  | invalidVideoType
  | createFailed
deriving Repr, DecidableEq

/-- What `report_issue` hands back to the framework: a redirect to a named
view, a render of the report form (with an optional error), or an exception
that escapes the view uncaught. -/
inductive Response where
  | redirect (viewName : String)
  | renderForm (error : Option FormError)
  | uncaught
deriving Repr, DecidableEq

/-- Observable outcome of one `report_issue` request: the response, the
IssueReport rows persisted by the request (final database state of each), the
temporary files materialized, how many times `detect_pothole_severity` was
invoked, and the values of the in-memory instance attributes
`issue.annotated_image` / `issue.annotated_video` that views.py lines 343/355
assign (they are not columns of the model, so they never reach the database). -/
structure RunResult where
  response           : Response
  created            : List IssueReportRow
  temps              : List TempEvent
  classifyCalls      : ℕ
  annotatedImageAttr : Option String
  annotatedVideoAttr : Option String
deriving Repr, DecidableEq

/-- `save_uploaded_file_temp` (views.py lines 245-256): materializes the upload
into a `NamedTemporaryFile(delete=False, ...)` and returns its path; nothing in
the request ever deletes that file again, so its footprint is a single
undeleted temp event. -/
def save_uploaded_file_temp : List TempEvent := [⟨.classifyCopy, false⟩]

/-- Lines 347-360 of views.py, inside the `try`: if a video is attached, check
its content type (rendering an error while the created row stays persisted),
otherwise assign `issue.video` and the transient `annotated_video` attribute
(line 355) and run `issue.save(update_fields=["video"])` (line 356).  A raise
from that save is caught by the `except` at line 362 and rendered as the
creation-failure page, with the inserted row still persisted but its `video`
column not updated; on success the view redirects. -/
def videoSaveBlock (req : ReportRequest) (env : ViewEnv) (ann : String)
    (temps : List TempEvent) (row : IssueReportRow) (aImg : Option String) :
    RunResult :=
  match req.video with
  | some vid =>
    if pyStartswith vid.contentType "video/" then
      if env.saveVideoRaises then
        { response := .renderForm (some .createFailed), created := [row],
          temps := temps, classifyCalls := 1,
          annotatedImageAttr := aImg, annotatedVideoAttr := some ann }
      else
        { response := .redirect "civilian_view_reports",
          created := [{ row with video := some vid.name }],
          temps := temps, classifyCalls := 1,
          annotatedImageAttr := aImg, annotatedVideoAttr := some ann }
    else
      { response := .renderForm (some .invalidVideoType), created := [row],
        temps := temps, classifyCalls := 1,
        annotatedImageAttr := aImg, annotatedVideoAttr := none }
  | none =>
    { response := .redirect "civilian_view_reports", created := [row],
      temps := temps, classifyCalls := 1,
      annotatedImageAttr := aImg, annotatedVideoAttr := none }

/-- Lines 323-364 of views.py: the `try` block.  `IssueReport.objects.create`
inserts the row with the stripped text fields, the classifier's severity, and
the model defaults (`status="pending"`, media columns NULL); a raise from the
insert is caught by the `except` at line 362 and rendered as a failure with
nothing persisted.  Then the image block (lines 336-345): an image whose
content type is not `image/...` renders an error with the row already
persisted; otherwise `issue.image` and the transient `annotated_image`
attribute are assigned (line 343) and `issue.save(update_fields=["image"])`
(line 344) runs — a raise from that save is likewise caught at line 362 and
rendered as the creation-failure page while the inserted row stays persisted
with its `image` column not updated. -/
def createStage (req : ReportRequest) (env : ViewEnv) (sev ann : String)
    (temps : List TempEvent) : RunResult :=
  if env.createRaises then
    { response := .renderForm (some .createFailed), created := [], temps := temps,
      classifyCalls := 1, annotatedImageAttr := none, annotatedVideoAttr := none }
  else
    let row0 : IssueReportRow :=
      { reporter := req.user, title := pyStrip req.title, category := pyStrip req.category,
        description := pyStrip req.description, location := pyStrip req.location,
        status := "pending", severity := sev, image := none, video := none }
    match req.image with
    | some img =>
      if pyStartswith img.contentType "image/" then
        if env.saveImageRaises then
          { response := .renderForm (some .createFailed), created := [row0],
            temps := temps, classifyCalls := 1,
            annotatedImageAttr := some ann, annotatedVideoAttr := none }
        else
          videoSaveBlock req env ann temps { row0 with image := some img.name }
            (some ann)
      else
        { response := .renderForm (some .invalidImageType), created := [row0],
          temps := temps, classifyCalls := 1,
          annotatedImageAttr := none, annotatedVideoAttr := none }
    | none => videoSaveBlock req env ann temps row0 none

/-- Lines 307-321 of views.py: when a video is attached, run
`_get_video_duration_seconds`; a known duration strictly above 6.0 renders a
rejection before anything is persisted, while an unknown duration (None) and a
duration within the cap both fall through to the create stage. -/
def durationStage (req : ReportRequest) (env : ViewEnv) (sev ann : String)
    (t0 : List TempEvent) : RunResult :=
  match req.video with
  | some _ =>
    let pr := probeRun env.probe
    let t1 := t0 ++ pr.temps
    match pr.duration with
    | some d =>
      if 6 < d then
        { response := .renderForm (some (.videoTooLong d)), created := [], temps := t1,
          classifyCalls := 1, annotatedImageAttr := none, annotatedVideoAttr := none }
      else createStage req env sev ann t1
    | none => createStage req env sev ann t1
  | none => createStage req env sev ann t0

/-- Lines 270-293 of views.py (both the image and the video arm have the same
shape): materialize the upload with `save_uploaded_file_temp`, call
`detect_pothole_severity` on the temp path — a raise from that call is not
caught anywhere in the view and escapes — and redirect immediately when the
result reports zero boxes. -/
def classifyBranch (req : ReportRequest) (env : ViewEnv) : RunResult :=
  let t0 := save_uploaded_file_temp
  match env.classify with
  | .raises =>
    { response := .uncaught, created := [], temps := t0, classifyCalls := 1,
      annotatedImageAttr := none, annotatedVideoAttr := none }
  | .ok boxes sev ann =>
    if boxes = 0 then
      { response := .redirect "civilian_view_reports", created := [], temps := t0,
        classifyCalls := 1, annotatedImageAttr := none, annotatedVideoAttr := none }
    else durationStage req env sev ann t0

/-- `report_issue` (views.py lines 258-366): non-POST requests render the bare
form; POST requests strip the four text fields and require all of them
non-empty; then the image arm, else the video arm, else a bare redirect with no
classification and no row created. -/
def report_issue (req : ReportRequest) (env : ViewEnv) : RunResult :=
  if req.isPost then
    if pyStrip req.title = "" ∨ pyStrip req.category = "" ∨
        pyStrip req.description = "" ∨ pyStrip req.location = "" then
      { response := .renderForm (some .allFieldsRequired), created := [], temps := [],
        classifyCalls := 0, annotatedImageAttr := none, annotatedVideoAttr := none }
    else
      match req.image with
      | some _ => classifyBranch req env
      | none =>
        match req.video with
        | some _ => classifyBranch req env
        | none =>
          { response := .redirect "civilian_view_reports", created := [], temps := [],
            classifyCalls := 0, annotatedImageAttr := none, annotatedVideoAttr := none }
  else
    { response := .renderForm none, created := [], temps := [], classifyCalls := 0,
      annotatedImageAttr := none, annotatedVideoAttr := none }

/-- All four stripped text fields of the request are non-empty (the Python
truthiness check of views.py line 267 on the stripped values). -/
def fieldsOk (req : ReportRequest) : Prop :=
  pyStrip req.title ≠ "" ∧ pyStrip req.category ≠ "" ∧
    pyStrip req.description ≠ "" ∧ pyStrip req.location ≠ ""

instance (req : ReportRequest) : Decidable (fieldsOk req) := by
  unfold fieldsOk; infer_instance

/-- C5: when the prober body runs, the strategies attempted form an initial
segment of the fixed order 1 (moviepy full decode), 2 (ffmpeg metadata probe),
3 (opencv frame count / frame rate), 4 (file-size heuristic); a later strategy
is attempted exactly when the previous one was attempted and produced no
duration (so the cascade short-circuits on the first success and a failure
never aborts it); and the returned duration is the first strategy result in
that order. -/
theorem c5_prober_cascade (env : ProbeEnv) (h : env.seekFails = false) :
    ((probeRun env).attempted = List.range' 1 (probeRun env).attempted.length ∧
      1 ≤ (probeRun env).attempted.length ∧ (probeRun env).attempted.length ≤ 4) ∧
    (∀ k, k ∈ ([1, 2, 3] : List ℕ) →
      (k + 1 ∈ (probeRun env).attempted ↔
        k ∈ (probeRun env).attempted ∧ strategyResult env k = none)) ∧
    (probeRun env).duration =
      firstSome [strategyResult env 1, strategyResult env 2,
                 strategyResult env 3, strategyResult env 4] := by
  cases h1 : moviepyStrategy env.moviepy <;>
  cases h2 : ffmpegStrategy env.ffprobe <;>
  cases h3 : opencvStrategy env.opencv <;>
  cases h4 : sizeStrategy env.sizeBytes <;>
  simp [probeRun, strategyResult, firstSome, h, h1, h2, h3, h4, List.range']

def c5probeEnv : ProbeEnv :=
  ⟨false, .raises, .ok [⟨"audio", some 3⟩], .ok (true, 90, 30), 0⟩

theorem c5_prober_cascade_witness :
    (probeRun c5probeEnv).duration =
      firstSome [strategyResult c5probeEnv 1, strategyResult c5probeEnv 2,
                 strategyResult c5probeEnv 3, strategyResult c5probeEnv 4] :=
  (c5_prober_cascade c5probeEnv rfl).2.2

/-- C6: the prober never lets an exception reach its caller — even when the
body raises before the cascade (only the initial seek can), the outer handler
returns None — and when all four strategies fail to produce a duration the
prober returns None rather than an error. -/
theorem c6_prober_returns_unknown (env : ProbeEnv) :
    (probeBodyE env = .error () → videoDurationSeconds env = none) ∧
    ((∀ k, k ∈ ([1, 2, 3, 4] : List ℕ) → strategyResult env k = none) →
      videoDurationSeconds env = none) := by
  constructor
  · intro he
    by_cases h : env.seekFails
    · simp [videoDurationSeconds, probeBodyE, h]
    · simp [probeBodyE, h] at he
  · intro hall
    have h1 := hall 1 (by simp)
    have h2 := hall 2 (by simp)
    have h3 := hall 3 (by simp)
    have h4 := hall 4 (by simp)
    simp [strategyResult] at h1 h2 h3 h4
    by_cases h : env.seekFails
    · simp [videoDurationSeconds, probeBodyE, h]
    · rw [← probeRun_duration]
      simp [probeRun, h, h1, h2, h3, h4]

def c6probeEnv : ProbeEnv :=
  ⟨false, .raises, .importFails, .ok (false, 0, 0), 0⟩

theorem c6_prober_returns_unknown_witness :
    videoDurationSeconds c6probeEnv = none :=
  (c6_prober_returns_unknown c6probeEnv).2 (by
    intro k hk
    fin_cases hk <;>
      norm_num [strategyResult, moviepyStrategy, ffmpegStrategy, opencvStrategy,
        sizeStrategy, c6probeEnv])

/-- C8: the frame-counting fallback divides frame count by frame rate only
when the capture opened and both values are strictly positive — in particular
the frame rate is never zero at the division — and otherwise yields no
duration, in which case (all earlier strategies having failed) the cascade
continues with the file-size heuristic. -/
theorem c8_framecount_guarded (r : LibResult (Bool × ℚ × ℚ)) :
    (∀ d, opencvStrategy r = some d →
      ∃ frameCount fps, r = .ok (true, frameCount, fps) ∧
        0 < fps ∧ 0 < frameCount ∧ d = frameCount / fps) ∧
    (∀ frameCount fps, ¬(0 < fps ∧ 0 < frameCount) →
      opencvStrategy (.ok (true, frameCount, fps)) = none) ∧
    (∀ env : ProbeEnv, env.seekFails = false → env.opencv = r →
      opencvStrategy r = none →
      strategyResult env 1 = none → strategyResult env 2 = none →
      videoDurationSeconds env = sizeStrategy env.sizeBytes) := by
  refine ⟨?_, ?_, ?_⟩
  · intro d hd
    match r with
    | .importFails => simp [opencvStrategy] at hd
    | .raises => simp [opencvStrategy] at hd
    | .ok (opened, fc, fps) =>
      cases opened
      · simp [opencvStrategy] at hd
      · by_cases hc : 0 < fps ∧ 0 < fc
        · refine ⟨fc, fps, rfl, hc.1, hc.2, ?_⟩
          simp [opencvStrategy, hc] at hd
          exact hd.symm
        · simp [opencvStrategy, hc] at hd
  · intro fc fps hc
    simp only [opencvStrategy, if_true]
    rw [if_neg]
    intro hcontra
    exact hc ⟨hcontra.1, hcontra.2⟩
  · intro env hsf hop hnone h1 h2
    have h3 : opencvStrategy env.opencv = none := by rw [hop]; exact hnone
    simp [strategyResult] at h1 h2
    rw [← probeRun_duration]
    simp [probeRun, hsf, h1, h2, h3]

theorem c8_framecount_guarded_witness :
    opencvStrategy (LibResult.ok (true, (0 : ℚ), (0 : ℚ))) = none :=
  (c8_framecount_guarded (LibResult.ok (true, 0, 0))).2.1 0 0 (by decide)

/-- C9: the last-resort heuristic estimates duration as file size in megabytes
(an assumed 1 MB/s bitrate) and accepts the estimate exactly when it lies in
the interval (0, 10]; outside it the strategy yields nothing, and since it is
the last strategy the prober then returns Unknown. -/
theorem c9_size_heuristic (size : ℕ) :
    (∀ d, sizeStrategy size = some d →
      d = (size : ℚ) / (1024 * 1024) ∧ 0 < d ∧ d ≤ 10) ∧
    (¬(0 < (size : ℚ) / (1024 * 1024) ∧ (size : ℚ) / (1024 * 1024) ≤ 10) →
      sizeStrategy size = none) ∧
    (∀ env : ProbeEnv, env.seekFails = false → env.sizeBytes = size →
      strategyResult env 1 = none → strategyResult env 2 = none →
      strategyResult env 3 = none → sizeStrategy size = none →
      videoDurationSeconds env = none) := by
  refine ⟨?_, ?_, ?_⟩
  · intro d hd
    unfold sizeStrategy at hd
    split at hd
    case isTrue hcond =>
      injection hd with hd
      exact ⟨hd.symm, hd ▸ hcond.1, hd ▸ hcond.2⟩
    case isFalse => exact absurd hd (by simp)
  · intro hc
    unfold sizeStrategy
    rw [if_neg hc]
  · intro env hsf hsz h1 h2 h3 h4
    have h4' : sizeStrategy env.sizeBytes = none := by rw [hsz]; exact h4
    simp [strategyResult] at h1 h2 h3
    rw [← probeRun_duration]
    simp [probeRun, hsf, h1, h2, h3, h4']

theorem c9_size_heuristic_witness :
    sizeStrategy 20971520 = none :=
  (c9_size_heuristic 20971520).2.1 (by norm_num)

theorem createStage_temps (req : ReportRequest) (env : ViewEnv) (sev ann : String)
    (t : List TempEvent) : (createStage req env sev ann t).temps = t := by
  unfold createStage videoSaveBlock
  repeat' split
  all_goals rfl

theorem durationStage_temps (req : ReportRequest) (env : ViewEnv) (sev ann : String)
    (t0 : List TempEvent) :
    (durationStage req env sev ann t0).temps = t0 ∨
    (durationStage req env sev ann t0).temps = t0 ++ (probeRun env.probe).temps := by
  unfold durationStage
  cases hv : req.video with
  | none => exact Or.inl (createStage_temps ..)
  | some vid =>
    dsimp only
    cases hd : (probeRun env.probe).duration with
    | none => exact Or.inr (createStage_temps ..)
    | some d =>
      dsimp only
      by_cases h6 : 6 < d
      · simp [h6]
      · rw [if_neg h6]
        exact Or.inr (createStage_temps ..)

theorem classifyBranch_temps (req : ReportRequest) (env : ViewEnv) :
    (classifyBranch req env).temps = save_uploaded_file_temp ∨
    (classifyBranch req env).temps =
      save_uploaded_file_temp ++ (probeRun env.probe).temps := by
  unfold classifyBranch
  cases hc : env.classify with
  | raises => exact Or.inl rfl
  | ok boxes sev ann =>
    dsimp only
    by_cases hb : boxes = 0
    · simp [hb]
    · rw [if_neg hb]
      exact durationStage_temps ..

theorem probeRun_temps_deleted (p : ProbeEnv) :
    ∀ e ∈ (probeRun p).temps, e.kind = .probeCopy ∧ e.deleted = true := by
  have hP : ∀ {α : Type} (r : LibResult α) (e : TempEvent),
      e ∈ stratTemps r → e.kind = .probeCopy ∧ e.deleted = true := by
    intro α r e he
    cases r <;> simp_all [stratTemps]
  intro e he
  unfold probeRun at he
  split at he
  · simp at he
  · split at he
    · simp only at he
      exact hP _ _ he
    · split at he
      · simp only at he
        rcases List.mem_append.mp he with h' | h' <;> exact hP _ _ h'
      · split at he <;>
        · simp only at he
          rcases List.mem_append.mp he with h' | h'
          · rcases List.mem_append.mp h' with h'' | h'' <;> exact hP _ _ h''
          · exact hP _ _ h'

theorem report_issue_temps (req : ReportRequest) (env : ViewEnv) :
    (report_issue req env).temps = [] ∨
    (report_issue req env).temps = save_uploaded_file_temp ∨
    (report_issue req env).temps =
      save_uploaded_file_temp ++ (probeRun env.probe).temps := by
  by_cases hp : req.isPost
  · by_cases hfld : pyStrip req.title = "" ∨ pyStrip req.category = "" ∨
        pyStrip req.description = "" ∨ pyStrip req.location = ""
    · left
      simp [report_issue, hp, hfld]
    · cases hi : req.image with
      | some img =>
        have hre : report_issue req env = classifyBranch req env := by
          simp [report_issue, hp, hfld, hi]
        rw [hre]
        rcases classifyBranch_temps req env with h | h
        · exact Or.inr (Or.inl h)
        · exact Or.inr (Or.inr h)
      | none =>
        cases hv : req.video with
        | some vid =>
          have hre : report_issue req env = classifyBranch req env := by
            simp [report_issue, hp, hfld, hi, hv]
          rw [hre]
          rcases classifyBranch_temps req env with h | h
          · exact Or.inr (Or.inl h)
          · exact Or.inr (Or.inr h)
        | none =>
          left
          simp [report_issue, hp, hfld, hi, hv]
  · left
    simp [report_issue, hp]

theorem videoSaveBlock_temps_irrel (req : ReportRequest) (env env' : ViewEnv)
    (ann : String) (t t' : List TempEvent) (row : IssueReportRow)
    (aImg : Option String) (hsv : env.saveVideoRaises = env'.saveVideoRaises) :
    (videoSaveBlock req env ann t row aImg).response =
      (videoSaveBlock req env' ann t' row aImg).response ∧
    (videoSaveBlock req env ann t row aImg).created =
      (videoSaveBlock req env' ann t' row aImg).created := by
  unfold videoSaveBlock
  rw [hsv]
  cases hv : req.video with
  | none => exact ⟨rfl, rfl⟩
  | some vid =>
    by_cases hct : pyStartswith vid.contentType "video/" <;>
      by_cases hsv' : env'.saveVideoRaises <;> simp [hct, hsv']

theorem createStage_temps_irrel (req : ReportRequest) (env env' : ViewEnv)
    (sev ann : String) (t t' : List TempEvent)
    (h : env.createRaises = env'.createRaises)
    (hsi : env.saveImageRaises = env'.saveImageRaises)
    (hsv : env.saveVideoRaises = env'.saveVideoRaises) :
    (createStage req env sev ann t).response = (createStage req env' sev ann t').response ∧
    (createStage req env sev ann t).created = (createStage req env' sev ann t').created := by
  unfold createStage
  rw [h, hsi]
  cases hb : env'.createRaises with
  | true => exact ⟨rfl, rfl⟩
  | false =>
    simp only [if_neg Bool.false_ne_true]
    cases hi : req.image with
    | none => exact videoSaveBlock_temps_irrel req env env' ann t t' _ _ hsv
    | some img =>
      dsimp only
      by_cases hct : pyStartswith img.contentType "image/"
      · simp only [if_pos hct]
        by_cases hsir : env'.saveImageRaises
        · simp [hsir]
        · simp only [if_neg hsir]
          exact videoSaveBlock_temps_irrel req env env' ann t t' _ _ hsv
      · simp only [if_neg hct]
        exact ⟨trivial, trivial⟩

theorem report_issue_reduces (req : ReportRequest) (env : ViewEnv) (boxes : ℕ)
    (sev ann : String) (hp : req.isPost = true) (hf : fieldsOk req)
    (hm : req.image.isSome ∨ req.video.isSome)
    (hc : env.classify = .ok boxes sev ann) (hb : boxes ≠ 0) :
    report_issue req env = durationStage req env sev ann save_uploaded_file_temp := by
  rcases hf with ⟨h1, h2, h3, h4⟩
  cases hi : req.image with
  | some img => simp [report_issue, classifyBranch, hp, h1, h2, h3, h4, hi, hc, hb]
  | none =>
    cases hveq : req.video with
    | some vid =>
      simp [report_issue, classifyBranch, hp, h1, h2, h3, h4, hi, hveq, hc, hb]
    | none => rcases hm with hm | hm <;> simp [hi, hveq] at hm

theorem createStage_created_response (req : ReportRequest) (env : ViewEnv)
    (sev ann : String) (t : List TempEvent) :
    (createStage req env sev ann t).created = [] ∨
    (createStage req env sev ann t).response = .redirect "civilian_view_reports" ∨
    (createStage req env sev ann t).response = .renderForm (some .invalidImageType) ∨
    (createStage req env sev ann t).response = .renderForm (some .invalidVideoType) ∨
    (createStage req env sev ann t).response = .renderForm (some .createFailed) := by
  by_cases hr : env.createRaises
  · left
    simp [createStage, hr]
  · cases hi : req.image with
    | none =>
      cases hv : req.video with
      | none =>
        right; left
        simp [createStage, videoSaveBlock, hr, hi, hv]
      | some vid =>
        by_cases hct : pyStartswith vid.contentType "video/"
        · by_cases hsv : env.saveVideoRaises
          · right; right; right; right
            simp [createStage, videoSaveBlock, hr, hi, hv, hct, hsv]
          · right; left
            simp [createStage, videoSaveBlock, hr, hi, hv, hct, hsv]
        · right; right; right; left
          simp [createStage, videoSaveBlock, hr, hi, hv, hct]
    | some img =>
      by_cases hcti : pyStartswith img.contentType "image/"
      · by_cases hsi : env.saveImageRaises
        · right; right; right; right
          simp [createStage, hr, hi, hcti, hsi]
        · cases hv : req.video with
          | none =>
            right; left
            simp [createStage, videoSaveBlock, hr, hi, hv, hcti, hsi]
          | some vid =>
            by_cases hct : pyStartswith vid.contentType "video/"
            · by_cases hsv : env.saveVideoRaises
              · right; right; right; right
                simp [createStage, videoSaveBlock, hr, hi, hv, hcti, hsi, hct, hsv]
              · right; left
                simp [createStage, videoSaveBlock, hr, hi, hv, hcti, hsi, hct, hsv]
            · right; right; right; left
              simp [createStage, videoSaveBlock, hr, hi, hv, hcti, hsi, hct]
      · right; right; left
        simp [createStage, hr, hi, hcti]

theorem report_issue_created_response (req : ReportRequest) (env : ViewEnv) :
    (report_issue req env).created = [] ∨
    (report_issue req env).response = .redirect "civilian_view_reports" ∨
    (report_issue req env).response = .renderForm (some .invalidImageType) ∨
    (report_issue req env).response = .renderForm (some .invalidVideoType) ∨
    (report_issue req env).response = .renderForm (some .createFailed) := by
  have hds : ∀ (sev ann : String) (t0 : List TempEvent),
      (durationStage req env sev ann t0).created = [] ∨
      (durationStage req env sev ann t0).response = .redirect "civilian_view_reports" ∨
      (durationStage req env sev ann t0).response = .renderForm (some .invalidImageType) ∨
      (durationStage req env sev ann t0).response = .renderForm (some .invalidVideoType) ∨
      (durationStage req env sev ann t0).response = .renderForm (some .createFailed) := by
    intro sev ann t0
    unfold durationStage
    cases hv : req.video with
    | none => exact createStage_created_response ..
    | some vid =>
      dsimp only
      cases hd : (probeRun env.probe).duration with
      | none => exact createStage_created_response ..
      | some d =>
        dsimp only
        by_cases h6 : 6 < d
        · simp [h6]
        · rw [if_neg h6]
          exact createStage_created_response ..
  have hcb : (classifyBranch req env).created = [] ∨
      (classifyBranch req env).response = .redirect "civilian_view_reports" ∨
      (classifyBranch req env).response = .renderForm (some .invalidImageType) ∨
      (classifyBranch req env).response = .renderForm (some .invalidVideoType) ∨
      (classifyBranch req env).response = .renderForm (some .createFailed) := by
    unfold classifyBranch
    cases hc : env.classify with
    | raises => simp
    | ok boxes sev ann =>
      dsimp only
      by_cases hb : boxes = 0
      · simp [hb]
      · rw [if_neg hb]
        exact hds ..
  by_cases hp : req.isPost
  · by_cases hfld : pyStrip req.title = "" ∨ pyStrip req.category = "" ∨
        pyStrip req.description = "" ∨ pyStrip req.location = ""
    · left
      simp [report_issue, hp, hfld]
    · cases hi : req.image with
      | some img =>
        have hre : report_issue req env = classifyBranch req env := by
          simp [report_issue, hp, hfld, hi]
        rw [hre]; exact hcb
      | none =>
        cases hv : req.video with
        | some vid =>
          have hre : report_issue req env = classifyBranch req env := by
            simp [report_issue, hp, hfld, hi, hv]
          rw [hre]; exact hcb
        | none =>
          left
          simp [report_issue, hp, hfld, hi, hv]
  · left
    simp [report_issue, hp]

/-- C1: whenever `report_issue` classifies an attached image or video and the
result reports zero boxes, the view redirects to the reports page and persists
nothing; conversely any request that does persist a report had a classification
result with a nonzero box count. -/
theorem c1_zero_boxes_never_persisted (req : ReportRequest) (env : ViewEnv) :
    (∀ sev ann, req.isPost = true → fieldsOk req →
      (req.image.isSome ∨ req.video.isSome) →
      env.classify = .ok 0 sev ann →
      (report_issue req env).response = .redirect "civilian_view_reports" ∧
      (report_issue req env).created = []) ∧
    ((report_issue req env).created ≠ [] →
      ∃ boxes sev ann, env.classify = .ok boxes sev ann ∧ boxes ≠ 0) := by
  constructor
  · intro sev ann hp hf hm hc
    rcases hf with ⟨h1, h2, h3, h4⟩
    cases hi : req.image with
    | some img =>
      simp [report_issue, classifyBranch, hp, h1, h2, h3, h4, hi, hc,
        save_uploaded_file_temp]
    | none =>
      cases hv : req.video with
      | some vid =>
        simp [report_issue, classifyBranch, hp, h1, h2, h3, h4, hi, hv, hc,
          save_uploaded_file_temp]
      | none => rcases hm with hm | hm <;> simp [hi, hv] at hm
  · intro hne
    by_cases hp : req.isPost
    · by_cases hfld : pyStrip req.title = "" ∨ pyStrip req.category = "" ∨
          pyStrip req.description = "" ∨ pyStrip req.location = ""
      · simp [report_issue, hp, hfld] at hne
      · cases hc : env.classify with
        | raises =>
          cases hi : req.image with
          | some img =>
            simp [report_issue, classifyBranch, hp, hfld, hi, hc] at hne
          | none =>
            cases hv : req.video with
            | some vid =>
              simp [report_issue, classifyBranch, hp, hfld, hi, hv, hc] at hne
            | none => simp [report_issue, hp, hfld, hi, hv] at hne
        | ok boxes sev ann =>
          by_cases hb : boxes = 0
          · subst hb
            cases hi : req.image with
            | some img =>
              simp [report_issue, classifyBranch, hp, hfld, hi, hc] at hne
            | none =>
              cases hv : req.video with
              | some vid =>
                simp [report_issue, classifyBranch, hp, hfld, hi, hv, hc] at hne
              | none => simp [report_issue, hp, hfld, hi, hv] at hne
          · exact ⟨boxes, sev, ann, rfl, hb⟩
    · simp [report_issue, hp] at hne

def c1req : ReportRequest :=
  ⟨true, some "amina", "Pothole", "pothole", "Deep pothole", "Main Road",
    some ⟨"p.jpg", "image/jpeg", 2048⟩, none⟩

def c1env : ViewEnv :=
  ⟨.ok 0 "low" "ann/p.jpg", ⟨false, .importFails, .importFails, .importFails, 0⟩,
    false, false, false⟩

theorem c1_zero_boxes_never_persisted_witness :
    (report_issue c1req c1env).response = .redirect "civilian_view_reports" ∧
    (report_issue c1req c1env).created = [] :=
  (c1_zero_boxes_never_persisted c1req c1env).1 "low" "ann/p.jpg" rfl
    (by decide) (Or.inl (by decide)) rfl

/-- C10: a POST whose four text fields are non-empty but which attaches neither
an image nor a video redirects to the reports page, never invokes the
classifier, and creates no IssueReport row. -/
theorem c10_no_media_no_report (req : ReportRequest) (env : ViewEnv)
    (hp : req.isPost = true) (hf : fieldsOk req)
    (hi : req.image = none) (hv : req.video = none) :
    (report_issue req env).response = .redirect "civilian_view_reports" ∧
    (report_issue req env).created = [] ∧
    (report_issue req env).classifyCalls = 0 := by
  rcases hf with ⟨h1, h2, h3, h4⟩
  simp [report_issue, hp, h1, h2, h3, h4, hi, hv]

def c10req : ReportRequest :=
  ⟨true, some "sipho", "Dark street", "streetlight", "Light out", "Kerk St",
    none, none⟩

def c10env : ViewEnv :=
  ⟨.ok 4 "critical" "unused", ⟨false, .importFails, .importFails, .importFails, 0⟩,
    false, false, false⟩

theorem c10_no_media_no_report_witness :
    (report_issue c10req c10env).response = .redirect "civilian_view_reports" ∧
    (report_issue c10req c10env).created = [] ∧
    (report_issue c10req c10env).classifyCalls = 0 :=
  c10_no_media_no_report c10req c10env rfl (by decide) rfl rfl

/-- C4: once an attached video has been classified with a nonzero box count,
a probed duration strictly above 6.0 seconds makes the view render the
too-long rejection and persist nothing, while an Unknown (None) probe result
leaves the response and the persisted rows exactly as they would be had the
probe returned a duration within the cap. -/
theorem c4_duration_policy (req : ReportRequest) (env : ViewEnv) (boxes : ℕ)
    (sev ann : String) (d : ℚ)
    (hp : req.isPost = true) (hf : fieldsOk req) (hv : req.video.isSome)
    (hc : env.classify = .ok boxes sev ann) (hb : boxes ≠ 0) :
    (videoDurationSeconds env.probe = some d → 6 < d →
      (report_issue req env).response = .renderForm (some (.videoTooLong d)) ∧
      (report_issue req env).created = []) ∧
    (videoDurationSeconds env.probe = none →
      ∀ (pe' : ProbeEnv) (d' : ℚ),
        videoDurationSeconds pe' = some d' → d' ≤ 6 →
        (report_issue req env).response =
          (report_issue req { env with probe := pe' }).response ∧
        (report_issue req env).created =
          (report_issue req { env with probe := pe' }).created) := by
  have hred := report_issue_reduces req env boxes sev ann hp hf (Or.inr hv) hc hb
  obtain ⟨vid, hveq⟩ := Option.isSome_iff_exists.mp hv
  constructor
  · intro hdur h6
    have hpd : (probeRun env.probe).duration = some d :=
      (probeRun_duration env.probe).trans hdur
    rw [hred]
    simp [durationStage, hveq, hpd, h6]
  · intro hdur pe' d' hd' hle
    have hpd : (probeRun env.probe).duration = none :=
      (probeRun_duration env.probe).trans hdur
    have hpd' : (probeRun pe').duration = some d' :=
      (probeRun_duration pe').trans hd'
    have hred' := report_issue_reduces req { env with probe := pe' } boxes sev ann
      hp hf (Or.inr hv) hc hb
    have h6' : ¬6 < d' := not_lt.mpr hle
    have he1 : durationStage req env sev ann save_uploaded_file_temp =
        createStage req env sev ann
          (save_uploaded_file_temp ++ (probeRun env.probe).temps) := by
      simp [durationStage, hveq, hpd]
    have he2 : durationStage req { env with probe := pe' } sev ann
          save_uploaded_file_temp =
        createStage req { env with probe := pe' } sev ann
          (save_uploaded_file_temp ++ (probeRun pe').temps) := by
      simp [durationStage, hveq, hpd', h6']
    rw [hred, hred', he1, he2]
    exact createStage_temps_irrel req env { env with probe := pe' } sev ann _ _
      rfl rfl rfl

def c4req : ReportRequest :=
  ⟨true, some "amina", "Flooded dip", "water", "Water pooling", "Vlei Rd",
    none, some ⟨"clip.webm", "video/webm", 4096⟩⟩

def c4env : ViewEnv :=
  ⟨.ok 1 "low" "ann/clip.webm",
    ⟨false, .ok (some 7), .importFails, .importFails, 4096⟩, false, false, false⟩

theorem c4_duration_policy_witness :
    (report_issue c4req c4env).response = .renderForm (some (.videoTooLong 7)) ∧
    (report_issue c4req c4env).created = [] :=
  (c4_duration_policy c4req c4env 1 "low" "ann/clip.webm" 7 rfl (by decide)
    rfl rfl (by decide)).1 (by decide) (by norm_num)

def c3reqRaise : ReportRequest :=
  ⟨true, some "amina", "Flooded road", "water", "Standing water", "5th Ave",
    some ⟨"wet.jpg", "image/jpeg", 4096⟩, none⟩

def c3envRaise : ViewEnv :=
  ⟨.raises, ⟨false, .importFails, .importFails, .importFails, 4096⟩,
    false, false, false⟩

def c3reqBadType : ReportRequest :=
  ⟨true, some "brian", "Torn sign", "other", "Sign damaged", "Oak St",
    some ⟨"scan.pdf", "application/pdf", 4096⟩, none⟩

def c3envBadType : ViewEnv :=
  ⟨.ok 3 "high" "ann/scan.jpg", ⟨false, .importFails, .importFails, .importFails, 4096⟩,
    false, false, false⟩

/-- C3 fails on the code in both halves.  First, `detect_pothole_severity` is
called outside every try/except of `report_issue` (views.py lines 272 and 286;
the try block only starts at line 323), so a classification failure escapes the
view as an uncaught exception instead of rendering a rejection page: response
`.uncaught`, which is a different constructor from every `.renderForm ...`.
Second, an error rendering does not imply that no report was persisted: an
image upload whose content type is not `image/...` is only rejected at line
341, after `IssueReport.objects.create` at line 326 has already inserted the
row, so the error page is rendered while the created report remains in the
database. -/
theorem c3_counterexample :
    (report_issue c3reqRaise c3envRaise).response = .uncaught ∧
    (report_issue c3reqRaise c3envRaise).response ≠
      .renderForm (some .createFailed) ∧
    (report_issue c3reqBadType c3envBadType).response =
      .renderForm (some .invalidImageType) ∧
    (report_issue c3reqBadType c3envBadType).created ≠ [] := by
  refine ⟨by decide, by decide, by decide, by decide⟩

/-- C3 amended: when the classification call raises, the exception propagates
out of `report_issue` uncaught (the framework turns it into a server error; no
rejection page is rendered by the view) and no IssueReport row is persisted by
that request.  An error rendering, however, does not guarantee an empty
database: whenever a row was persisted, the response is either the success
redirect or one of the error pages rendered after the insert — the two media
content-type validations (views.py lines 341/353) or the creation-failure page
produced when one of the `issue.save(update_fields=[...])` calls (lines
344/356) raises inside the try block and is caught at line 362.  The last
conjunct shows the save-failure path is real: with the insert succeeding and
`issue.save(update_fields=["image"])` raising, the creation-failure page is
rendered while the inserted row stays persisted. -/
theorem c3_classify_failure_uncaught (req : ReportRequest) (env : ViewEnv) :
    (req.isPost = true → fieldsOk req → (req.image.isSome ∨ req.video.isSome) →
      env.classify = .raises →
      (report_issue req env).response = .uncaught ∧
      (report_issue req env).created = []) ∧
    ((report_issue req env).created ≠ [] →
      (report_issue req env).response = .redirect "civilian_view_reports" ∨
      (report_issue req env).response = .renderForm (some .invalidImageType) ∨
      (report_issue req env).response = .renderForm (some .invalidVideoType) ∨
      (report_issue req env).response = .renderForm (some .createFailed)) ∧
    (∀ (img : MediaFile) (boxes : ℕ) (sev ann : String),
      req.isPost = true → fieldsOk req →
      req.image = some img → req.video = none →
      pyStartswith img.contentType "image/" = true →
      env.classify = .ok boxes sev ann → boxes ≠ 0 →
      env.createRaises = false → env.saveImageRaises = true →
      (report_issue req env).response = .renderForm (some .createFailed) ∧
      (report_issue req env).created ≠ []) := by
  refine ⟨?_, ?_, ?_⟩
  · intro hp hf hm hc
    rcases hf with ⟨h1, h2, h3, h4⟩
    cases hi : req.image with
    | some img =>
      simp [report_issue, classifyBranch, hp, h1, h2, h3, h4, hi, hc,
        save_uploaded_file_temp]
    | none =>
      cases hv : req.video with
      | some vid =>
        simp [report_issue, classifyBranch, hp, h1, h2, h3, h4, hi, hv, hc,
          save_uploaded_file_temp]
      | none => rcases hm with hm | hm <;> simp [hi, hv] at hm
  · intro hne
    rcases report_issue_created_response req env with h | h
    · exact absurd h hne
    · exact h
  · intro img boxes sev ann hp hf hi hvnone hct hc hb hcr hsi
    have hred := report_issue_reduces req env boxes sev ann hp hf
      (Or.inl (by simp [hi])) hc hb
    rw [hred]
    simp [durationStage, hvnone, createStage, hcr, hi, hct, hsi]

def c3wreq : ReportRequest :=
  ⟨true, none, "Burst pipe", "water", "Water everywhere", "Dam Rd",
    some ⟨"pipe.jpg", "image/jpeg", 1024⟩, none⟩

def c3wenv : ViewEnv :=
  ⟨.ok 2 "medium" "ann/pipe.jpg",
    ⟨false, .importFails, .importFails, .importFails, 1024⟩, false, true, false⟩

theorem c3_classify_failure_uncaught_witness :
    (report_issue c3wreq c3wenv).response = .renderForm (some .createFailed) ∧
    (report_issue c3wreq c3wenv).created ≠ [] :=
  (c3_classify_failure_uncaught c3wreq c3wenv).2.2 ⟨"pipe.jpg", "image/jpeg", 1024⟩
    2 "medium" "ann/pipe.jpg" rfl (by decide) rfl rfl (by decide) rfl (by decide)
    rfl rfl

def c2req : ReportRequest :=
  ⟨true, some "amina", "Pothole cluster", "pothole", "Several potholes",
    "Main Road", some ⟨"road.jpg", "image/jpeg", 2048⟩, none⟩

def c2env : ViewEnv :=
  ⟨.ok 2 "high" "ann_images/road_ann.jpg",
    ⟨false, .importFails, .importFails, .importFails, 2048⟩, false, false, false⟩

/-- C2 names a schema the code does not have: `IssueReport` in
`civilian/models.py` declares no `annotated_image` and no `annotated_video`
column (its columns are exactly `issueReportColumns`), so although views.py
lines 343/355 assign `issue.annotated_image` / `issue.annotated_video`, those
assignments only create transient Python instance attributes and
`issue.save(update_fields=["image"])` (line 344) persists nothing of them.
The saved record of a successful image upload carries the severity and the
image, but no annotated output path — contradicting the claim's requirement
that the saved record's annotated field be populated from the
DetectionResult. -/
theorem c2_annotated_fields_not_persisted :
    "annotated_image" ∉ issueReportColumns ∧
    "annotated_video" ∉ issueReportColumns ∧
    (report_issue c2req c2env).created =
      [{ reporter := some "amina", title := "Pothole cluster",
         category := "pothole", description := "Several potholes",
         location := "Main Road", status := "pending", severity := "high",
         image := some "road.jpg", video := none }] ∧
    (report_issue c2req c2env).annotatedImageAttr =
      some "ann_images/road_ann.jpg" := by
  refine ⟨by decide, by decide, by decide, by decide⟩

def c7req : ReportRequest :=
  ⟨true, none, "Leak", "water", "Leaking pipe", "Elm St",
    some ⟨"leak.jpg", "image/jpeg", 1024⟩, none⟩

def c7env : ViewEnv :=
  ⟨.ok 1 "low" "ann/leak.jpg", ⟨false, .importFails, .importFails, .importFails, 1024⟩,
    false, false, false⟩

/-- C7 fails on the code: the temp copy materialized for classification by
`save_uploaded_file_temp` (views.py line 250, `NamedTemporaryFile(delete=False)`)
is never deleted — no `os.remove` exists anywhere on that path — so after this
successful image-report request the pipeline's temp-file trace still contains
an undeleted file, contradicting the claim that every temporary file is
deleted before the call that created it completes. -/
theorem c7_counterexample :
    (report_issue c7req c7env).temps = [⟨TempKind.classifyCopy, false⟩] := by
  decide

/-- C7 amended: temp copies made during duration probing are each deleted
before the probing call completes, and the only temp files a request can leave
undeleted are the classification copies made by `save_uploaded_file_temp`
(`delete=False`); every request that classifies an attached image or video
leaves exactly such an undeleted classification copy behind. -/
theorem c7_probe_temps_deleted_classify_temp_leaks
    (req : ReportRequest) (env : ViewEnv) :
    (∀ e ∈ (probeRun env.probe).temps, e.kind = .probeCopy ∧ e.deleted = true) ∧
    (∀ e ∈ (report_issue req env).temps, e.deleted = false → e.kind = .classifyCopy) ∧
    (req.isPost = true → fieldsOk req → (req.image.isSome ∨ req.video.isSome) →
      (⟨TempKind.classifyCopy, false⟩ : TempEvent) ∈ (report_issue req env).temps) := by
  refine ⟨probeRun_temps_deleted env.probe, ?_, ?_⟩
  · intro e he hdel
    rcases report_issue_temps req env with h | h | h
    · rw [h] at he
      simp at he
    · rw [h] at he
      simp [save_uploaded_file_temp] at he
      rw [he]
    · rw [h] at he
      rcases List.mem_append.mp he with h' | h'
      · simp [save_uploaded_file_temp] at h'
        rw [h']
      · have := (probeRun_temps_deleted env.probe e h').2
        rw [this] at hdel
        exact absurd hdel (by simp)
  · intro hp hf hm
    rcases hf with ⟨h1, h2, h3, h4⟩
    have hre : report_issue req env = classifyBranch req env := by
      cases hi : req.image with
      | some img => simp [report_issue, hp, h1, h2, h3, h4, hi]
      | none =>
        cases hv : req.video with
        | some vid => simp [report_issue, hp, h1, h2, h3, h4, hi, hv]
        | none => rcases hm with hm | hm <;> simp [hi, hv] at hm
    rw [hre]
    rcases classifyBranch_temps req env with h | h <;> rw [h]
    · simp [save_uploaded_file_temp]
    · simp [save_uploaded_file_temp]

def c7wreq : ReportRequest :=
  ⟨true, some "zoe", "Potholes", "pothole", "Row of potholes", "R21",
    none, some ⟨"road.webm", "video/webm", 2048⟩⟩

def c7wenv : ViewEnv :=
  ⟨.ok 2 "medium" "ann/road.webm",
    ⟨false, .ok (some 3), .importFails, .importFails, 2048⟩, false, false, false⟩

theorem c7_probe_temps_deleted_classify_temp_leaks_witness :
    (⟨TempKind.classifyCopy, false⟩ : TempEvent) ∈ (report_issue c7wreq c7wenv).temps :=
  (c7_probe_temps_deleted_classify_temp_leaks c7wreq c7wenv).2.2 rfl (by decide)
    (Or.inr (by decide))

end CivicTool
